import Mathlib

/-!
Shallow embedding of the 3DBirdModel reconstruction pipeline
(`main_build_3dbird.py` and the `bird3d` package): directory listing and
image discovery (`io_utils.py`), the sparse structure-from-motion stage
(`colmap_sfm.py`), the two dense backends (`colmap_dense.py`,
`openmvs_dense.py`) and the registered-image metrics (`metrics_sfm.py`).

The filesystem is modelled by small per-stage state records holding exactly
the artifacts the code inspects (existence flags, file counts, file sizes);
external tools are modelled by environment records giving the artifacts each
tool invocation would produce.  Every executed external command is recorded
in a trace together with the state at the moment of its invocation.
-/

deriving instance DecidableEq for Except

namespace Bird3d

/-! ## Strings: code-point lexicographic order (Python string comparison) -/

/-- Lexicographic `≤` on character lists by code point; this is how Python
compares the strings (and `Path` names) handed to `sorted`. -/
def lexLeCh : List Char → List Char → Bool
  | [], _ => true
  | _ :: _, [] => false
  | a :: as, b :: bs =>
    if a.toNat < b.toNat then true
    else if b.toNat < a.toNat then false
    else lexLeCh as bs

/-- Lexicographic `≤` on strings by code point. -/
def lexLe (a b : String) : Bool :=
  lexLeCh a.data b.data

/-! ## Directory entries and Python path helpers (`io_utils.py`) -/

/-- One entry of a directory listing (result of `Path.iterdir()`). -/
structure Entry where
  name : String
  isDir : Bool
  isFile : Bool
deriving DecidableEq, Repr

/-- Python `pathlib.PurePath.suffix`: the substring from the last dot of the name,
provided that dot is neither the first nor the last character; else `""`. -/
def pySuffix (s : String) : String :=
  let cs := s.data
  let n := cs.length
  let dots := (List.range n).filter (fun i => cs.getD i ' ' == '.')
  match dots.getLast? with
  | some i => if 0 < i && i + 1 < n then ⟨cs.drop i⟩ else ""
  | none => ""

/-- Python `str.startswith` on the first character (used with `"."` and `"#"`). -/
def pyStartsWithChar (s : String) (c : Char) : Bool :=
  match s.data with
  | [] => false
  | d :: _ => d == c

/-- The set `IMAGE_EXTS` from `io_utils.py`: an exact (case-sensitive) set of
extension strings. -/
def IMAGE_EXTS : List String :=
  [".jpg", ".jpeg", ".png", ".JPG", ".JPEG", ".PNG"]

/-- Sort directory entries by name (Python `sorted(p.iterdir())` orders
paths lexicographically; within one directory that is the name order). -/
def sortEntries (l : List Entry) : List Entry :=
  List.insertionSort (fun a b => lexLe a.name b.name = true) l

/-- Function `io_utils.list_images`: sorted entries that are files whose `suffix`
is a member of `IMAGE_EXTS`. -/
def list_images (entries : List Entry) : List String :=
  ((sortEntries entries).filter
    (fun e => e.isFile && decide (pySuffix e.name ∈ IMAGE_EXTS))).map (·.name)

/-- Function `io_utils.list_bird_folders`: sorted entries that are directories whose
name does not start with a dot. -/
def list_bird_folders (entries : List Entry) : List String :=
  ((sortEntries entries).filter
    (fun e => e.isDir && !(pyStartsWithChar e.name '.'))).map (·.name)

/-- The subjects actually iterated by `main` in `main_build_3dbird.py`:
the loop at line 87 reads `for bird_dir in bird_dirs[0:1]`, i.e. only the
first element of `list_bird_folders` is visited. -/
def mainVisitedSubjects (dataEntries : List Entry) : List String :=
  (list_bird_folders dataEntries).take 1

/-! ## Sparse reconstruction stage (`colmap_sfm.py`, `run_sfm_sparse`) -/

/-- External commands the sparse stage can invoke (`colmap` subcommands). -/
inductive SfmCmd
  | featureExtractor
  | sequentialMatcher
  | exhaustiveMatcher
  | mapper
deriving DecidableEq, Repr

/-- Failures of the sparse stage: `ValueError` for an unrecognized matcher
(line 61) and the `RuntimeError` for a missing sub-model (line 81). -/
inductive SfmErr
  | configError
  | insufficientData
deriving DecidableEq, Repr

/-- The filesystem state the sparse stage inspects and mutates:
the contents of `work_dir/sparse` (`none` when the directory is absent,
else the list of sub-model directory names) and whether
`work_dir/database.db` exists. -/
structure SfmFS where
  sparseDir : Option (List String)
  dbExists : Bool
deriving DecidableEq, Repr

/-- Whether `work_dir/sparse/0` exists (line 30-31). -/
def model0Exists (fs : SfmFS) : Bool :=
  match fs.sparseDir with
  | some subs => decide ("0" ∈ subs)
  | none => false

/-- Behaviour of the external `mapper` invocation: the sub-model directory
names it creates under `work_dir/sparse`. -/
structure SfmEnv where
  mapperSubs : List String
deriving Repr

/-- Result of one sparse-stage invocation: the trace of external commands
(with the filesystem state at each invocation), the final filesystem state,
and the outcome (selected sub-model name, or a raised error). -/
structure SfmRun where
  trace : List (SfmCmd × SfmFS)
  fs : SfmFS
  outcome : Except SfmErr String
deriving DecidableEq, Repr

/-- Sub-model selection, `colmap_sfm.py` lines 77-82: `work_dir/sparse/0`
if it exists; else the first element of the sorted list of sub-model
directories; `RuntimeError` when there is none. -/
def selectSubModel (subs : List String) : Except SfmErr String :=
  if "0" ∈ subs then .ok "0"
  else
    match List.insertionSort (fun a b => lexLe a b = true) subs with
    | [] => .error .insufficientData
    | d :: _ => .ok d

/-- The tail of `run_sfm_sparse` after the matching step: the `mapper`
invocation (lines 69-75, recorded with the state at its invocation) followed
by sub-model selection (lines 77-84).  `mapper` writes its sub-models into
the previously emptied `sparse` directory. -/
def sfmAfterMatch (env : SfmEnv) (fs : SfmFS) (tr : List (SfmCmd × SfmFS)) : SfmRun :=
  let fs1 : SfmFS := { fs with sparseDir := some env.mapperSubs }
  { trace := tr ++ [(SfmCmd.mapper, fs)]
    fs := fs1
    outcome := selectSubModel env.mapperSubs }

/-- Function `run_sfm_sparse` (`colmap_sfm.py` lines 16-84).  Early return when
`sparse/0` already exists (lines 30-32); otherwise `ensure_clean_dir` on the
`sparse` directory (line 35), then feature extraction and matching, both
skipped together when `database.db` already exists (lines 37-67; the
matcher enum is only examined in the matching branch, after feature
extraction has already run), then mapping and sub-model selection. -/
def run_sfm_sparse (matcher : String) (env : SfmEnv) (fs : SfmFS) : SfmRun :=
  if model0Exists fs then
    { trace := [], fs := fs, outcome := .ok "0" }
  else
    let fs1 : SfmFS := { fs with sparseDir := some [] }
    if fs1.dbExists then
      sfmAfterMatch env fs1 []
    else
      let fs2 : SfmFS := { fs1 with dbExists := true }
      let tr1 := [(SfmCmd.featureExtractor, fs1)]
      if matcher == "sequential" then
        sfmAfterMatch env fs2 (tr1 ++ [(SfmCmd.sequentialMatcher, fs2)])
      else if matcher == "exhaustive" then
        sfmAfterMatch env fs2 (tr1 ++ [(SfmCmd.exhaustiveMatcher, fs2)])
      else
        { trace := tr1, fs := fs2, outcome := .error .configError }

/-! ## Accelerated dense backend (`colmap_dense.py`, `run_dense_fused_pointcloud`) -/

/-- External commands of the accelerated dense backend. -/
inductive DenseCmd
  | imageUndistorter
  | patchMatchStereo
  | stereoFusion
deriving DecidableEq, Repr

/-- The error `RuntimeError("Dense fusion did not produce fused.ply")` (line 101). -/
inductive DenseErr
  | fusionMissing
deriving DecidableEq, Repr

/-- The filesystem state the accelerated dense backend inspects and mutates:
the caller-specified output `fused.ply` (size, when it exists; lives under
`_outputs`, outside the dense workspace), the `images` sub-directory of the
dense workspace (existence and number of files), the `stereo/depth_maps`
sub-directory (existence and number of `*.bin` files), and the workspace
`fused.ply` (size, when it exists). -/
structure DenseFS where
  fusedOut : Option Nat
  undistDirExists : Bool
  undistCount : Nat
  depthDirExists : Bool
  depthBinCount : Nat
  fusedWs : Option Nat
deriving DecidableEq, Repr

/-- Artifacts the three external tools would produce: the number of files
`image_undistorter` writes into `images/`, the number of `*.bin` depth maps
`patch_match_stereo` writes, and the size of the `fused.ply` that
`stereo_fusion` writes. -/
structure DenseEnv where
  undistN : Nat
  depthN : Nat
  fusedSize : Nat
deriving Repr

/-- Result of one dense-backend invocation: trace of external commands with
the state at each invocation, final state, and outcome (`true` = the
early-SKIP return at the sentinel gate; `false` = the stage ran to the end
and returned the copied output path). -/
structure DenseRun where
  trace : List (DenseCmd × DenseFS)
  fs : DenseFS
  outcome : Except DenseErr Bool
deriving DecidableEq, Repr

/-- The point-cloud sentinel validity check of both dense backends:
the file exists and its size is strictly greater than 100000 bytes
(`colmap_dense.py` line 44, `openmvs_dense.py` line 120). -/
def validCloud (f : Option Nat) : Bool :=
  match f with
  | some sz => decide (100000 < sz)
  | none => false

/-- Effect of `ensure_clean_dir(dense_workspace_dir)` (line 49): the workspace is
deleted and recreated empty; the output file under `_outputs` is unaffected. -/
def cleanDenseWs (fs : DenseFS) : DenseFS :=
  { fs with undistDirExists := false, undistCount := 0,
            depthDirExists := false, depthBinCount := 0, fusedWs := none }

/-- The body of `run_dense_fused_pointcloud` past the sentinel gate
(`colmap_dense.py` lines 48-105): `ensure_clean_dir` only under `clean`
(line 48); then the three sub-steps, each guarded by its own finer-grained
sentinel (lines 54, 70, 86); final existence check and copy
(lines 100-103).  Directory creations via `mkdir(exist_ok=True)`
(lines 41, 50) create no modelled artifact and destroy nothing. -/
def denseBody (resume clean : Bool) (env : DenseEnv) (fs0 : DenseFS) : DenseRun :=
  let fs1 := if clean then cleanDenseWs fs0 else fs0
    let step1 :=
      !resume || clean || !fs1.undistDirExists || fs1.undistCount == 0
    let fs2 := if step1 then
        { fs1 with undistDirExists := true, undistCount := env.undistN }
      else fs1
    let tr1 := if step1 then [(DenseCmd.imageUndistorter, fs1)] else []
    let haveDepth := fs2.depthDirExists && decide (0 < fs2.depthBinCount)
    let step2 := !resume || clean || !haveDepth
    let fs3 := if step2 then
        { fs2 with depthDirExists := true, depthBinCount := env.depthN }
      else fs2
    let tr2 := if step2 then tr1 ++ [(DenseCmd.patchMatchStereo, fs2)] else tr1
    let step3 := !resume || clean ||
      (match fs3.fusedWs with
       | none => true
       | some sz => decide (sz < 100000))
    let fs4 := if step3 then { fs3 with fusedWs := some env.fusedSize } else fs3
    let tr3 := if step3 then tr2 ++ [(DenseCmd.stereoFusion, fs3)] else tr2
    { trace := tr3
      fs := match fs4.fusedWs with
            | none => fs4
            | some sz => { fs4 with fusedOut := some sz }
      outcome := match fs4.fusedWs with
            | none => .error .fusionMissing
            | some _ => .ok false }

/-- Function `run_dense_fused_pointcloud` (`colmap_dense.py` lines 17-105): the
sentinel gate at line 44 — resume set, clean unset, output exists with size
strictly above 100000 — returns the existing output immediately; otherwise
the sub-step body runs. -/
def run_dense_fused_pointcloud (resume clean : Bool) (env : DenseEnv)
    (fs0 : DenseFS) : DenseRun :=
  if resume && !clean && validCloud fs0.fusedOut then
    { trace := [], fs := fs0, outcome := .ok true }
  else
    denseBody resume clean env fs0

/-! ## CPU-portable dense backend (`openmvs_dense.py`, `run_openmvs_dense_pointcloud`) -/

/-- External commands of the CPU-portable dense backend. -/
inductive MvsCmd
  | interfaceColmap
  | densifyPointCloud
deriving DecidableEq, Repr

/-- Failures: the `RuntimeError` of `_prepare_colmap_input_for_openmvs`
(line 40, no COLMAP model files found) and the `RuntimeError` for a
missing `scene_dense.ply` (line 165). -/
inductive MvsErr
  | modelFilesMissing
  | densePlyMissing
deriving DecidableEq, Repr

/-- The filesystem state the CPU backend inspects and mutates: the
caller-specified output (size, when it exists; outside the work dir) and
the work-dir artifacts `scene.mvs`, `scene_dense.mvs`, `scene_dense.ply`. -/
structure MvsFS where
  denseOut : Option Nat
  sceneMvs : Bool
  sceneDenseMvs : Bool
  sceneDensePly : Option Nat
deriving DecidableEq, Repr

/-- Read-only inputs and tool behaviour: whether `colmap_model_dir/sparse`
already holds a flat model (all three `.bin` or all three `.txt` files,
line 28), whether `sparse/0` holds one (lines 34-37), and the
`scene_dense.ply` the `DensifyPointCloud` invocation would produce
(`none` when the tool does not produce it, line 164). -/
structure MvsEnv where
  flatModelOk : Bool
  sub0ModelOk : Bool
  densifyPly : Option Nat
deriving Repr

/-- Result of one CPU-backend invocation (same reading as `DenseRun`). -/
structure MvsRun where
  trace : List (MvsCmd × MvsFS)
  fs : MvsFS
  outcome : Except MvsErr Bool
deriving DecidableEq, Repr

/-- Effect of `shutil.rmtree(work_dir)` under `clean` (lines 124-125): work-dir
artifacts are gone; the output file outside the work dir is unaffected. -/
def cleanMvsWs (fs : MvsFS) : MvsFS :=
  { fs with sceneMvs := false, sceneDenseMvs := false, sceneDensePly := none }

/-- Function `_prepare_colmap_input_for_openmvs` (lines 8-54): use the flat model
directly when present; else copy the `sparse/0` model into a shim workspace;
else raise.  Returns whether it succeeded (the shim copy itself creates
files that no later check reads, so it is not part of the modelled state). -/
def prepare_colmap_input (env : MvsEnv) : Except MvsErr Unit :=
  if env.flatModelOk then .ok ()
  else if env.sub0ModelOk then .ok ()
  else .error .modelFilesMissing

/-- The tail of `run_openmvs_dense_pointcloud` after the `InterfaceCOLMAP`
step: `DensifyPointCloud` guarded by the presence of both `scene_dense.mvs`
and `scene_dense.ply` (line 152), then the final existence check on
`scene_dense.ply` (line 164) and the copy to the output path (line 170). -/
def mvsAfterInterface (resume clean : Bool) (env : MvsEnv) (fs : MvsFS)
    (tr : List (MvsCmd × MvsFS)) : MvsRun :=
  let step2 := !resume || clean || !fs.sceneDenseMvs ||
    (match fs.sceneDensePly with | none => true | some _ => false)
  let fs3 := if step2 then
      { fs with sceneDenseMvs := true, sceneDensePly := env.densifyPly }
    else fs
  let tr3 := if step2 then tr ++ [(MvsCmd.densifyPointCloud, fs)] else tr
  { trace := tr3
    fs := match fs3.sceneDensePly with
          | none => fs3
          | some sz => { fs3 with denseOut := some sz }
    outcome := match fs3.sceneDensePly with
          | none => .error .densePlyMissing
          | some _ => .ok false }

/-- The body of `run_openmvs_dense_pointcloud` past the sentinel gate
(`openmvs_dense.py` lines 124-172): `rmtree` only under `clean` (line 124);
then `InterfaceCOLMAP` guarded by `scene.mvs` (line 136, with the shim
preparation inside the guarded branch, before the command), then the
`mvsAfterInterface` tail. -/
def mvsBody (resume clean : Bool) (env : MvsEnv) (fs0 : MvsFS) : MvsRun :=
  let fs1 := if clean then cleanMvsWs fs0 else fs0
  let step1 := !resume || clean || !fs1.sceneMvs
  if step1 then
    match prepare_colmap_input env with
    | .error e => { trace := [], fs := fs1, outcome := .error e }
    | .ok () =>
      let fs2 := { fs1 with sceneMvs := true }
      mvsAfterInterface resume clean env fs2 [(MvsCmd.interfaceColmap, fs1)]
  else
    mvsAfterInterface resume clean env fs1 []

/-- Function `run_openmvs_dense_pointcloud` (`openmvs_dense.py` lines 90-172): the
sentinel gate at line 120 — resume set, clean unset, output exists with
size strictly above 100000 — returns the existing output immediately;
otherwise the sub-step body runs. -/
def run_openmvs_dense_pointcloud (resume clean : Bool) (env : MvsEnv)
    (fs0 : MvsFS) : MvsRun :=
  if resume && !clean && validCloud fs0.denseOut then
    { trace := [], fs := fs0, outcome := .ok true }
  else
    mvsBody resume clean env fs0

/-! ## Backend unavailability and the orchestrator's reaction
(`main_build_3dbird.py` lines 11, 162-182; `colmap_dense.py`) -/

/-- The failure conditions the orchestrator distinguishes around the
accelerated dense backend: the generic `RuntimeError("Command failed
(code=...)")` raised by `run`/`_run` on a non-zero exit, and the
`ColmapCudaRequiredError` that `main` imports from `bird3d.colmap_dense`
and catches (the spec's `AcceleratedBackendUnavailable`). -/
inductive PipeErr
  | externalToolFailure (code : Int)
  | colmapCudaRequired
deriving DecidableEq, Repr

/-- Modelled from the spec: the class `ColmapCudaRequiredError` and the code
in `bird3d.colmap_dense` that raises it are absent from the source tree,
although `main_build_3dbird.py` line 11 imports the class from that module
and line 177 catches it.  Per the spec, when the accelerated backend's
hardware prerequisite (CUDA) is unavailable the dense stage fails with this
distinguished condition rather than a generic tool failure; when the
prerequisite is available the stage proceeds as `run_dense_fused_pointcloud`. -/
def colmap_dense_attempt (cudaAvailable : Bool) (resume clean : Bool)
    (env : DenseEnv) (fs : DenseFS) : Except PipeErr DenseRun :=
  if cudaAvailable then .ok (run_dense_fused_pointcloud resume clean env fs)
  else .error .colmapCudaRequired

/-- The orchestrator's handler, `main_build_3dbird.py` lines 176-182: only
`ColmapCudaRequiredError` is caught; for it the "Use OpenMVS instead"
suggestion is printed (first component) and the error is re-raised.  Every
other outcome passes through without a suggestion. -/
def mainDenseHandle (r : Except PipeErr DenseRun) : Bool × Except PipeErr DenseRun :=
  match r with
  | .error .colmapCudaRequired => (true, .error .colmapCudaRequired)
  | r => (false, r)

/-! ## Metrics extractor (`metrics_sfm.py`) -/

/-- Python `str.strip()`: drop whitespace from both ends. -/
def trimCh (cs : List Char) : List Char :=
  ((cs.dropWhile Char.isWhitespace).reverse.dropWhile Char.isWhitespace).reverse

/-- Python `str.split()` with no argument: split on whitespace runs, no empty
tokens.  The accumulator holds the current token reversed. -/
def wordsAux : List Char → List Char → List (List Char)
  | [], acc => if acc.isEmpty then [] else [acc.reverse]
  | c :: rest, acc =>
    if c.isWhitespace then
      if acc.isEmpty then wordsAux rest []
      else acc.reverse :: wordsAux rest []
    else wordsAux rest (c :: acc)

/-- The tokens of a line, as Python `line.split()` produces them. -/
def splitTokens (cs : List Char) : List (List Char) :=
  wordsAux cs []

/-- The extensions of `_IMG_RE = re.compile(r".*\.(jpg|jpeg|png|tif|tiff|bmp|webp)$", re.IGNORECASE)`,
with the leading dot. -/
def IMG_EXT_LIST : List (List Char) :=
  [".jpg".data, ".jpeg".data, ".png".data, ".tif".data, ".tiff".data,
   ".bmp".data, ".webp".data]

/-- Evaluation of `_IMG_RE.match t` on a whitespace-free token: the anchored pattern
`.*\.(ext)$` with `IGNORECASE` matches exactly when the token,
case-lowered, ends in one of the dotted extensions. -/
def imgReMatch (t : List Char) : Bool :=
  IMG_EXT_LIST.any (fun ext => ext.isSuffixOf (t.map Char.toLower))

/-- The per-line predicate of `count_registered_images` (lines 77-83):
strip the line; skip empty lines and comment lines starting with `#`;
count the line when it has at least 10 whitespace-separated tokens and the
last token matches `_IMG_RE`. -/
def countsLine (line : String) : Bool :=
  let l := trimCh line.data
  if l.isEmpty then false
  else if (match l with | c :: _ => c == '#' | [] => false) then false
  else
    let parts := splitTokens l
    decide (10 ≤ parts.length) && imgReMatch (parts.getLastD [])

/-- Function `count_registered_images` (`metrics_sfm.py` lines 63-84): `0` when
`images.txt` does not exist (`none`), else the number of counted lines. -/
def count_registered_images (file : Option (List String)) : Nat :=
  match file with
  | none => 0
  | some lines => lines.countP countsLine

/-- Function `registered_images_best_effort` (`metrics_sfm.py` lines 47-60): prefer
the count parsed from the `model_analyzer` output (`analyzerOut = some n`;
`none` models any exception in that tier: tool failure or unparsable
output); else fall back to `count_registered_images` when a fallback path
was supplied; else `0`. -/
def registered_images_best_effort (analyzerOut : Option Nat)
    (imagesTxtFallback : Option (Option (List String))) : Nat :=
  match analyzerOut with
  | some n => n
  | none =>
    match imagesTxtFallback with
    | some file => count_registered_images file
    | none => 0

/-! ## Spec-side predicates used to state the claims -/

/-- The characters a numeric field of a COLMAP text model may contain
(integer or floating-point literal, sign, decimal point, exponent). -/
def numericChars : List Char :=
  ['0', '1', '2', '3', '4', '5', '6', '7', '8', '9', '.', '-', '+', 'e', 'E']

/-- A purely numeric token. -/
def isNumericToken (t : List Char) : Bool :=
  !t.isEmpty && t.all (fun c => decide (c ∈ numericChars))

/-- A 2D-points line of a COLMAP text `images.txt`: every
whitespace-separated token is numeric. -/
def isPointsLine (line : String) : Bool :=
  (splitTokens (trimCh line.data)).all isNumericToken

/-- The sparse working area contains a sub-directory named `d`. -/
def sfmHasSubdir (fs : SfmFS) (d : String) : Bool :=
  match fs.sparseDir with
  | some l => decide (d ∈ l)
  | none => false

end Bird3d


namespace Bird3d

/-! ## Properties of the code-point lexicographic order -/

theorem lexLeCh_refl : ∀ as, lexLeCh as as = true
  | [] => rfl
  | a :: as => by simp [lexLeCh, lexLeCh_refl as]

theorem lexLeCh_total : ∀ as bs, lexLeCh as bs = true ∨ lexLeCh bs as = true
  | [], _ => Or.inl rfl
  | _ :: _, [] => Or.inr rfl
  | a :: as, b :: bs => by
    rcases Nat.lt_trichotomy a.toNat b.toNat with h | h | h
    · left; simp [lexLeCh, h]
    · have hab : ¬ a.toNat < b.toNat := by rw [h]; exact lt_irrefl _
      have hba : ¬ b.toNat < a.toNat := by rw [h]; exact lt_irrefl _
      rcases lexLeCh_total as bs with ih | ih
      · left; simp [lexLeCh, hab, hba, ih]
      · right; simp [lexLeCh, hab, hba, ih]
    · right; simp [lexLeCh, h]

theorem lexLeCh_trans : ∀ as bs cs, lexLeCh as bs = true → lexLeCh bs cs = true →
    lexLeCh as cs = true
  | [], _, _ => by intro _ _; rfl
  | _ :: _, [], _ => by intro h _; exact absurd h (by simp [lexLeCh])
  | _ :: _, _ :: _, [] => by intro _ h; exact absurd h (by simp [lexLeCh])
  | a :: as, b :: bs, c :: cs => by
    intro h1 h2
    by_cases hab : a.toNat < b.toNat
    · by_cases hbc : b.toNat < c.toNat
      · simp [lexLeCh, lt_trans hab hbc]
      · by_cases hcb : c.toNat < b.toNat
        · exact absurd h2 (by simp [lexLeCh, hbc, hcb])
        · have hbc' : b.toNat = c.toNat := le_antisymm (not_lt.mp hcb) (not_lt.mp hbc)
          simp [lexLeCh, hbc' ▸ hab]
    · by_cases hba : b.toNat < a.toNat
      · exact absurd h1 (by simp [lexLeCh, hab, hba])
      · have hab' : a.toNat = b.toNat := le_antisymm (not_lt.mp hba) (not_lt.mp hab)
        have h1' : lexLeCh as bs = true := by simpa [lexLeCh, hab, hba] using h1
        by_cases hbc : b.toNat < c.toNat
        · simp [lexLeCh, hab' ▸ hbc]
        · by_cases hcb : c.toNat < b.toNat
          · exact absurd h2 (by simp [lexLeCh, hbc, hcb])
          · have hbc' : b.toNat = c.toNat := le_antisymm (not_lt.mp hcb) (not_lt.mp hbc)
            have h2' : lexLeCh bs cs = true := by simpa [lexLeCh, hbc, hcb] using h2
            have hac : ¬ a.toNat < c.toNat := by rw [hab', hbc']; exact lt_irrefl _
            have hca : ¬ c.toNat < a.toNat := by rw [hab', hbc']; exact lt_irrefl _
            simp [lexLeCh, hac, hca, lexLeCh_trans as bs cs h1' h2']

/-! ## Claim C1 -/

/-- Claim C1: the batch driver is claimed to visit every subject folder
discovered under the data root.  This fails on the code: the loop at
`main_build_3dbird.py` line 87 reads `for bird_dir in bird_dirs[0:1]`, so
with a data root holding the two subject directories `birdA` and `birdB`
(both discovered, in sorted order), only `birdA` is visited and `birdB` is
never examined. -/
theorem c1_driver_visits_only_first_subject :
    list_bird_folders [⟨"birdA", true, false⟩, ⟨"birdB", true, false⟩] =
      ["birdA", "birdB"] ∧
    mainVisitedSubjects [⟨"birdA", true, false⟩, ⟨"birdB", true, false⟩] =
      ["birdA"] ∧
    "birdB" ∉ mainVisitedSubjects [⟨"birdA", true, false⟩, ⟨"birdB", true, false⟩] := by
  decide

/-! ## Claim C4 -/

/-- Claim C4: sub-model selection is deterministic — sub-model `0` is
returned whenever present; otherwise the lexicographically-first sub-model
directory is returned; and with no sub-model at all the stage fails with the
insufficient-data error instead of returning a path
(`colmap_sfm.py` lines 77-84). -/
theorem c4_submodel_selection_deterministic :
    ∀ subs : List String,
      ("0" ∈ subs → selectSubModel subs = .ok "0") ∧
      ("0" ∉ subs → subs ≠ [] →
        ∃ d, selectSubModel subs = .ok d ∧ d ∈ subs ∧
          ∀ x ∈ subs, lexLe d x = true) ∧
      (subs = [] → selectSubModel subs = .error .insufficientData) := by
  intro subs
  refine ⟨fun h => by simp [selectSubModel, h], fun h hne => ?_, fun h => by
    subst h; simp [selectSubModel]⟩
  haveI : IsTotal String (fun a b => lexLe a b = true) :=
    ⟨fun a b => lexLeCh_total a.data b.data⟩
  haveI : IsTrans String (fun a b => lexLe a b = true) :=
    ⟨fun a b c => lexLeCh_trans a.data b.data c.data⟩
  have hsort := List.sorted_insertionSort (fun a b => lexLe a b = true) subs
  have hperm := List.perm_insertionSort (fun a b => lexLe a b = true) subs
  cases hs : List.insertionSort (fun a b => lexLe a b = true) subs with
  | nil =>
    rw [hs] at hperm
    exact absurd hperm.symm.eq_nil hne
  | cons d rest =>
    refine ⟨d, by simp [selectSubModel, h, hs], hperm.subset (hs ▸ List.mem_cons_self d rest), ?_⟩
    intro x hx
    have hx' : x ∈ d :: rest := hs ▸ hperm.symm.subset hx
    rcases List.mem_cons.mp hx' with rfl | hx''
    · exact lexLeCh_refl x.data
    · exact List.rel_of_sorted_cons (hs ▸ hsort) x hx''

/-- Witness for C4 at concrete inputs: with sub-models `0` and `2`
selection returns `0`; with only `5` and `2` it returns a lexicographically
minimal element (which evaluates to `2`); with none it fails. -/
theorem c4_submodel_selection_deterministic_witness :
    selectSubModel ["0", "2"] = .ok "0" ∧
    (∃ d, selectSubModel ["5", "2"] = .ok d ∧ d ∈ ["5", "2"] ∧
      ∀ x ∈ ["5", "2"], lexLe d x = true) ∧
    selectSubModel [] = .error .insufficientData :=
  ⟨(c4_submodel_selection_deterministic ["0", "2"]).1 (by decide),
   (c4_submodel_selection_deterministic ["5", "2"]).2.1 (by decide) (by decide),
   (c4_submodel_selection_deterministic []).2.2 rfl⟩

/-! ## Claim C3 -/

theorem denseBody_not_skip (resume clean : Bool) (env : DenseEnv) (fs : DenseFS) :
    (denseBody resume clean env fs).outcome ≠ .ok true := by
  dsimp only [denseBody]
  split <;> simp

theorem mvsAfterInterface_not_skip (resume clean : Bool) (env : MvsEnv)
    (fs : MvsFS) (tr : List (MvsCmd × MvsFS)) :
    (mvsAfterInterface resume clean env fs tr).outcome ≠ .ok true := by
  dsimp only [mvsAfterInterface]
  split <;> simp

theorem mvsBody_not_skip (resume clean : Bool) (env : MvsEnv) (fs : MvsFS) :
    (mvsBody resume clean env fs).outcome ≠ .ok true := by
  dsimp only [mvsBody]
  split_ifs
  all_goals
    first
    | apply mvsAfterInterface_not_skip
    | (split <;> first | apply mvsAfterInterface_not_skip | simp)

/-- Claim C3: both dense backends decide SKIP (the early return of the
existing output, with no commands run and no state change) exactly when the
clean flag is unset, the resume flag is set, and the output point-cloud
sentinel passes its validity check — existence with size strictly greater
than 100000 bytes (`colmap_dense.py` line 44, `openmvs_dense.py` line 120);
in every other case control proceeds into the sub-step body. -/
theorem c3_dense_gate_skip_iff :
    ∀ (resume clean : Bool) (envC : DenseEnv) (fsC : DenseFS)
      (envM : MvsEnv) (fsM : MvsFS),
      (validCloud fsC.fusedOut = true ↔
        ∃ sz, fsC.fusedOut = some sz ∧ 100000 < sz) ∧
      (run_dense_fused_pointcloud resume clean envC fsC = ⟨[], fsC, .ok true⟩ ↔
        clean = false ∧ resume = true ∧ validCloud fsC.fusedOut = true) ∧
      (run_openmvs_dense_pointcloud resume clean envM fsM = ⟨[], fsM, .ok true⟩ ↔
        clean = false ∧ resume = true ∧ validCloud fsM.denseOut = true) := by
  intro resume clean envC fsC envM fsM
  refine ⟨?_, ?_, ?_⟩
  · cases h : fsC.fusedOut with
    | none => simp [validCloud]
    | some sz => simp [validCloud]
  · constructor
    · intro h
      by_cases hg : (resume && !clean && validCloud fsC.fusedOut) = true
      · have := hg
        simp only [Bool.and_eq_true, Bool.not_eq_true'] at this
        exact ⟨this.1.2, this.1.1, this.2⟩
      · rw [run_dense_fused_pointcloud, if_neg hg] at h
        exact absurd (congrArg DenseRun.outcome h) (denseBody_not_skip _ _ _ _)
    · rintro ⟨hc, hr, hv⟩
      subst hc; subst hr
      simp [run_dense_fused_pointcloud, hv]
  · constructor
    · intro h
      by_cases hg : (resume && !clean && validCloud fsM.denseOut) = true
      · have := hg
        simp only [Bool.and_eq_true, Bool.not_eq_true'] at this
        exact ⟨this.1.2, this.1.1, this.2⟩
      · rw [run_openmvs_dense_pointcloud, if_neg hg] at h
        exact absurd (congrArg MvsRun.outcome h) (mvsBody_not_skip _ _ _ _)
    · rintro ⟨hc, hr, hv⟩
      subst hc; subst hr
      simp [run_openmvs_dense_pointcloud, hv]

/-- Witness for C3 at concrete inputs: with resume set, clean unset and a
200001-byte output the accelerated backend skips, and a 100000-byte output
does not satisfy the gate of the CPU backend. -/
theorem c3_dense_gate_skip_iff_witness :
    run_dense_fused_pointcloud true false ⟨5, 5, 10⟩
        ⟨some 200001, false, 0, false, 0, none⟩ =
      ⟨[], ⟨some 200001, false, 0, false, 0, none⟩, .ok true⟩ ∧
    ¬ run_openmvs_dense_pointcloud true false ⟨true, true, some 7⟩
        ⟨some 100000, false, false, none⟩ =
      ⟨[], ⟨some 100000, false, false, none⟩, .ok true⟩ :=
  ⟨((c3_dense_gate_skip_iff true false ⟨5, 5, 10⟩
      ⟨some 200001, false, 0, false, 0, none⟩ ⟨true, true, some 7⟩
      ⟨some 100000, false, false, none⟩).2.1).mpr ⟨rfl, rfl, by decide⟩,
   fun h => by
    have := ((c3_dense_gate_skip_iff true false ⟨5, 5, 10⟩
      ⟨some 200001, false, 0, false, 0, none⟩ ⟨true, true, some 7⟩
      ⟨some 100000, false, false, none⟩).2.2).mp h
    exact absurd this.2.2 (by decide)⟩

/-! ## Claim C5 -/

/-- Claim C5 counterexample: the claim says that for an unrecognized matcher
value no feature extraction, matching or mapping command runs.  On a fresh
subject (no `sparse/0`, no `database.db`) with matcher `"foo"`, the stage
does raise the configuration error, but only after the feature-extraction
command has already been invoked: the trace is non-empty and consists of the
feature extractor (`colmap_sfm.py` runs `feature_extractor` at lines 40-50
before examining the matcher at lines 55-61). -/
theorem c5_counterexample_feature_extraction_runs :
    (run_sfm_sparse "foo" ⟨["0"]⟩ ⟨none, false⟩).outcome = .error .configError ∧
    (run_sfm_sparse "foo" ⟨["0"]⟩ ⟨none, false⟩).trace.map Prod.fst =
      [SfmCmd.featureExtractor] ∧
    (run_sfm_sparse "foo" ⟨["0"]⟩ ⟨none, false⟩).trace ≠ [] := by
  decide

/-- Claim C5 (amended): for every matcher value other than `"sequential"`
and `"exhaustive"`, when the sparse sentinel `sparse/0` is absent and the
feature/match database does not already exist, the sparse stage fails with
the configuration error before any matching or mapping command runs — but
after the feature-extraction command has run (the trace is exactly the
feature extractor). -/
theorem c5_unknown_matcher_rejected_before_matching :
    ∀ (matcher : String) (env : SfmEnv) (fs : SfmFS),
      matcher ≠ "sequential" → matcher ≠ "exhaustive" →
      model0Exists fs = false → fs.dbExists = false →
      (run_sfm_sparse matcher env fs).outcome = .error .configError ∧
      (run_sfm_sparse matcher env fs).trace.map Prod.fst =
        [SfmCmd.featureExtractor] := by
  intro matcher env fs h1 h2 hm hdb
  have hb1 : (matcher == "sequential") = false := by simp [h1]
  have hb2 : (matcher == "exhaustive") = false := by simp [h2]
  constructor <;> simp [run_sfm_sparse, hm, hdb, hb1, hb2]

/-- Witness for the amended C5 at matcher `"foo"` on a subject with a
partial sub-model `1` and no database. -/
theorem c5_unknown_matcher_rejected_before_matching_witness :
    (run_sfm_sparse "foo" ⟨["0"]⟩ ⟨some ["1"], false⟩).outcome =
      .error .configError ∧
    (run_sfm_sparse "foo" ⟨["0"]⟩ ⟨some ["1"], false⟩).trace.map Prod.fst =
      [SfmCmd.featureExtractor] :=
  c5_unknown_matcher_rejected_before_matching "foo" ⟨["0"]⟩ ⟨some ["1"], false⟩
    (by decide) (by decide) (by decide) rfl

/-! ## Claim C6 -/

/-- Claim C6 counterexample: the claim says a RUN decision never destroys
existing partial state before the first sub-step.  For the sparse stage on
a workspace holding the partial sub-model directory `1` (so the `sparse/0`
sentinel is absent and the gate decides RUN) with an existing database,
`ensure_clean_dir` at `colmap_sfm.py` line 35 empties the `sparse`
directory: the first executed command (the mapper) observes a state in
which `1` is gone. -/
theorem c6_counterexample_sparse_stage_wipes_partial_state :
    model0Exists ⟨some ["1"], true⟩ = false ∧
    sfmHasSubdir ⟨some ["1"], true⟩ "1" = true ∧
    (run_sfm_sparse "sequential" ⟨["0"]⟩ ⟨some ["1"], true⟩).trace.head? =
      some (SfmCmd.mapper, ⟨some [], true⟩) ∧
    sfmHasSubdir ⟨some [], true⟩ "1" = false := by
  decide

theorem denseBody_first_state (resume : Bool) (env : DenseEnv) (fs : DenseFS)
    (c : DenseCmd) (s : DenseFS) (rest : List (DenseCmd × DenseFS)) :
    (denseBody resume false env fs).trace = (c, s) :: rest → s = fs := by
  dsimp only [denseBody]
  split_ifs <;> intro h <;> simp_all

theorem mvsFirst_state (resume : Bool) (env : MvsEnv) (fs : MvsFS)
    (c : MvsCmd) (s : MvsFS) (rest : List (MvsCmd × MvsFS)) :
    (mvsBody resume false env fs).trace = (c, s) :: rest → s = fs := by
  dsimp only [mvsBody, mvsAfterInterface]
  split_ifs <;> (try split) <;> intro h <;> simp_all

theorem sfmFirst_state (matcher : String) (env : SfmEnv) (fs : SfmFS)
    (c : SfmCmd) (s : SfmFS) (rest : List (SfmCmd × SfmFS)) :
    model0Exists fs = false →
    (run_sfm_sparse matcher env fs).trace = (c, s) :: rest →
    s = { fs with sparseDir := some [] } := by
  intro hm
  dsimp only [run_sfm_sparse, sfmAfterMatch]
  rw [if_neg (by simp [hm])]
  split_ifs <;> intro h <;> simp_all

/-- Claim C6 (amended): when the gate decides RUN with the clean flag unset,
both dense backends preserve the entire pre-existing modelled state up to
their first executed command (the state recorded at the head of the trace
is the input state); the sparse stage preserves the feature/match database
but recreates its `sparse` output directory empty before its first command. -/
theorem c6_run_preserves_dense_state_wipes_sparse_dir :
    (∀ (resume : Bool) (env : DenseEnv) (fs : DenseFS) (c : DenseCmd)
        (s : DenseFS) (rest : List (DenseCmd × DenseFS)),
      (run_dense_fused_pointcloud resume false env fs).trace = (c, s) :: rest →
      s = fs) ∧
    (∀ (resume : Bool) (env : MvsEnv) (fs : MvsFS) (c : MvsCmd)
        (s : MvsFS) (rest : List (MvsCmd × MvsFS)),
      (run_openmvs_dense_pointcloud resume false env fs).trace = (c, s) :: rest →
      s = fs) ∧
    (∀ (matcher : String) (env : SfmEnv) (fs : SfmFS) (c : SfmCmd)
        (s : SfmFS) (rest : List (SfmCmd × SfmFS)),
      model0Exists fs = false →
      (run_sfm_sparse matcher env fs).trace = (c, s) :: rest →
      s.dbExists = fs.dbExists ∧ s.sparseDir = some []) := by
  refine ⟨?_, ?_, ?_⟩
  · intro resume env fs c s rest
    rw [run_dense_fused_pointcloud]
    split_ifs with hg
    · intro h; simp at h
    · exact denseBody_first_state resume env fs c s rest
  · intro resume env fs c s rest
    rw [run_openmvs_dense_pointcloud]
    split_ifs with hg
    · intro h; simp at h
    · exact mvsFirst_state resume env fs c s rest
  · intro matcher env fs c s rest hm h
    have := sfmFirst_state matcher env fs c s rest hm h
    subst this
    exact ⟨rfl, rfl⟩

/-- Witness for the amended C6: on a fresh accelerated-backend run the first
command observes exactly the input state, and on a sparse run from a
workspace with partial sub-model `1` the first command observes the same
database flag and an emptied `sparse` directory. -/
theorem c6_run_preserves_dense_state_wipes_sparse_dir_witness :
    (⟨none, true, 3, true, 2, some 40⟩ : DenseFS) =
      ⟨none, true, 3, true, 2, some 40⟩ ∧
    ((⟨some [], true⟩ : SfmFS).dbExists =
        (⟨some ["1"], true⟩ : SfmFS).dbExists ∧
      (⟨some [], true⟩ : SfmFS).sparseDir = some []) :=
  ⟨(c6_run_preserves_dense_state_wipes_sparse_dir).1 true ⟨9, 9, 9⟩
      ⟨none, true, 3, true, 2, some 40⟩ DenseCmd.stereoFusion
      ⟨none, true, 3, true, 2, some 40⟩ [] (by decide),
   (c6_run_preserves_dense_state_wipes_sparse_dir).2.2 "sequential" ⟨["0"]⟩
      ⟨some ["1"], true⟩ SfmCmd.mapper ⟨some [], true⟩ [] (by decide) (by decide)⟩

/-! ## Claim C7 -/

/-- Claim C7 counterexample: the claim says a second invocation with
resume set and clean unset after a successful first invocation always
SKIPs with no external-tool invocations.  With a tool environment whose
fusion step produces a 10-byte `fused.ply`, the first invocation on a fresh
workspace succeeds (returns the output path), yet the second invocation on
the resulting state re-invokes `stereo_fusion` (the 10-byte cloud fails the
100000-byte sentinel check) instead of skipping. -/
theorem c7_counterexample_small_cloud_reruns_fusion :
    (run_dense_fused_pointcloud true false ⟨5, 5, 10⟩
        ⟨none, false, 0, false, 0, none⟩).outcome = .ok false ∧
    (run_dense_fused_pointcloud true false ⟨5, 5, 10⟩
        ⟨none, false, 0, false, 0, none⟩).fs =
      ⟨some 10, true, 5, true, 5, some 10⟩ ∧
    (run_dense_fused_pointcloud true false ⟨5, 5, 10⟩
        ⟨some 10, true, 5, true, 5, some 10⟩).trace.map Prod.fst =
      [DenseCmd.stereoFusion] ∧
    (run_dense_fused_pointcloud true false ⟨5, 5, 10⟩
        ⟨some 10, true, 5, true, 5, some 10⟩).outcome ≠ .ok true := by
  decide

/-- Claim C7 (amended): invoking a dense stage a second time with resume
set and clean unset, with no intervening state change after a first
invocation that succeeded and left an output point cloud passing the
100000-byte sentinel check, yields SKIP: the existing output is returned,
the trace is empty (no external-tool invocation) and the state is unchanged
(no filesystem write).  This holds for both backends. -/
theorem c7_resume_idempotent_when_cloud_valid :
    (∀ (env : DenseEnv) (fs : DenseFS) (sk : Bool),
      (run_dense_fused_pointcloud true false env fs).outcome = .ok sk →
      validCloud (run_dense_fused_pointcloud true false env fs).fs.fusedOut = true →
      run_dense_fused_pointcloud true false env
          (run_dense_fused_pointcloud true false env fs).fs =
        ⟨[], (run_dense_fused_pointcloud true false env fs).fs, .ok true⟩) ∧
    (∀ (env : MvsEnv) (fs : MvsFS) (sk : Bool),
      (run_openmvs_dense_pointcloud true false env fs).outcome = .ok sk →
      validCloud (run_openmvs_dense_pointcloud true false env fs).fs.denseOut = true →
      run_openmvs_dense_pointcloud true false env
          (run_openmvs_dense_pointcloud true false env fs).fs =
        ⟨[], (run_openmvs_dense_pointcloud true false env fs).fs, .ok true⟩) := by
  constructor
  · intro env fs sk _ hv
    rw [run_dense_fused_pointcloud, if_pos (by simp [hv])]
  · intro env fs sk _ hv
    rw [run_openmvs_dense_pointcloud, if_pos (by simp [hv])]

/-- Witness for the amended C7: with a 200001-byte fusion result the first
invocation succeeds and the second invocation skips with an empty trace and
unchanged state (both backends). -/
theorem c7_resume_idempotent_when_cloud_valid_witness :
    run_dense_fused_pointcloud true false ⟨5, 5, 200001⟩
        (run_dense_fused_pointcloud true false ⟨5, 5, 200001⟩
          ⟨none, false, 0, false, 0, none⟩).fs =
      ⟨[], (run_dense_fused_pointcloud true false ⟨5, 5, 200001⟩
          ⟨none, false, 0, false, 0, none⟩).fs, .ok true⟩ ∧
    run_openmvs_dense_pointcloud true false ⟨false, true, some 200002⟩
        (run_openmvs_dense_pointcloud true false ⟨false, true, some 200002⟩
          ⟨none, false, false, none⟩).fs =
      ⟨[], (run_openmvs_dense_pointcloud true false ⟨false, true, some 200002⟩
          ⟨none, false, false, none⟩).fs, .ok true⟩ :=
  ⟨(c7_resume_idempotent_when_cloud_valid).1 ⟨5, 5, 200001⟩
      ⟨none, false, 0, false, 0, none⟩ false (by decide) (by decide),
   (c7_resume_idempotent_when_cloud_valid).2 ⟨false, true, some 200002⟩
      ⟨none, false, false, none⟩ false (by decide) (by decide)⟩

/-! ## Claim C2 -/

/-- Claim C2: when the accelerated dense backend cannot run because CUDA is
unavailable, the dense stage fails with the distinguished
CUDA-required condition — a failure type distinct from the generic
external-tool failure — and the orchestrator's handler
(`main_build_3dbird.py` lines 176-182) reacts to exactly that condition by
printing the suggestion to use the alternate backend and re-raising, while
a generic tool failure produces no suggestion.  (The raising side is
modelled from the spec, `colmap_dense_attempt`; the handling side is the
code of `main`.) -/
theorem c2_cuda_unavailable_distinguished :
    ∀ (resume clean : Bool) (env : DenseEnv) (fs : DenseFS),
      colmap_dense_attempt false resume clean env fs =
        .error .colmapCudaRequired ∧
      (∀ code : Int, PipeErr.colmapCudaRequired ≠ PipeErr.externalToolFailure code) ∧
      (mainDenseHandle (colmap_dense_attempt false resume clean env fs)).1 = true ∧
      (mainDenseHandle (colmap_dense_attempt false resume clean env fs)).2 =
        .error .colmapCudaRequired ∧
      (∀ code : Int,
        (mainDenseHandle (.error (.externalToolFailure code))).1 = false) := by
  intro resume clean env fs
  refine ⟨rfl, ?_, rfl, rfl, fun code => rfl⟩
  intro code h
  exact PipeErr.noConfusion h

/-- Witness for C2 at concrete inputs: the orchestrator's handler emits the
backend suggestion when the accelerated backend reports the CUDA-required
condition. -/
theorem c2_cuda_unavailable_distinguished_witness :
    (mainDenseHandle (colmap_dense_attempt false true false ⟨5, 5, 10⟩
      ⟨none, false, 0, false, 0, none⟩)).1 = true :=
  (c2_cuda_unavailable_distinguished true false ⟨5, 5, 10⟩
    ⟨none, false, 0, false, 0, none⟩).2.2.1

/-! ## Claim C8 -/

/-- Claim C8 counterexample: the claim bounds the reported registered-image
count by the subject's total image count.  For a subject folder holding the
single image `a.jpg` (total = 1), with the analyzer tier failing and a
fallback `images.txt` listing two registered images (`a.jpg` and `b.jpg`),
the extractor reports 2 > 1: nothing in the code clamps the count to the
subject's total. -/
theorem c8_counterexample_count_exceeds_subject_total :
    (list_images [⟨"a.jpg", false, true⟩]).length = 1 ∧
    registered_images_best_effort none
      (some (some ["1 2 3 4 5 6 7 8 9 a.jpg", "1 2 3 4 5 6 7 8 9 b.jpg"])) = 2 ∧
    ¬ registered_images_best_effort none
        (some (some ["1 2 3 4 5 6 7 8 9 a.jpg", "1 2 3 4 5 6 7 8 9 b.jpg"])) ≤
      (list_images [⟨"a.jpg", false, true⟩]).length := by
  decide

/-- Claim C8 (amended): the reported count is nonnegative; the fallback
count equals the number of counted lines of the parsed listing and never
exceeds the listing's line count; a missing listing reports 0.  The bound
by the subject's total image count is not enforced by the extractor (it
holds only when the listing's registered entries are images of the
subject). -/
theorem c8_count_nonnegative_and_bounded_by_listing :
    ∀ (analyzerOut : Option Nat) (fb : Option (Option (List String)))
      (lines : List String),
      0 ≤ registered_images_best_effort analyzerOut fb ∧
      count_registered_images (some lines) ≤ lines.length ∧
      count_registered_images none = 0 ∧
      registered_images_best_effort none (some (some lines)) =
        count_registered_images (some lines) := by
  intro a fb lines
  exact ⟨Nat.zero_le _, List.countP_le_length _, rfl, rfl⟩

/-- Witness for C8 at a concrete listing of one header line. -/
theorem c8_count_nonnegative_and_bounded_by_listing_witness :
    count_registered_images (some ["1 2 3 4 5 6 7 8 9 a.jpg"]) ≤ 1 :=
  (c8_count_nonnegative_and_bounded_by_listing none none
    ["1 2 3 4 5 6 7 8 9 a.jpg"]).2.1

/-! ## Claim C9 -/

theorem numericToken_no_imgMatch (t : List Char) (h : isNumericToken t = true) :
    imgReMatch t = false := by
  cases hA : imgReMatch t with
  | false => rfl
  | true =>
    exfalso
    rw [imgReMatch, List.any_eq_true] at hA
    obtain ⟨ext, hext, hsuf⟩ := hA
    have hsuf' : ext <:+ t.map Char.toLower := List.isSuffixOf_iff_suffix.mp hsuf
    obtain ⟨pre, hpre⟩ := hsuf'
    have hextlast : ∃ cl, ext.getLast? = some cl ∧
        (cl = 'g' ∨ cl = 'f' ∨ cl = 'p') := by
      simp only [IMG_EXT_LIST, List.mem_cons, List.not_mem_nil, or_false] at hext
      rcases hext with rfl | rfl | rfl | rfl | rfl | rfl | rfl <;> decide
    obtain ⟨cl, hcl, hclv⟩ := hextlast
    have hextne : ext ≠ [] := by
      intro he
      rw [he] at hcl
      simp at hcl
    have h1 : (t.map Char.toLower).getLast? = some cl := by
      rw [← hpre, List.getLast?_append_of_ne_nil _ hextne]
      exact hcl
    rw [isNumericToken, Bool.and_eq_true] at h
    obtain ⟨hne, hall⟩ := h
    have hne' : t ≠ [] := by simpa using hne
    obtain ⟨d, hd⟩ := Option.isSome_iff_exists.mp (List.getLast?_isSome.mpr hne')
    have hdnum : d ∈ numericChars := by
      have := List.all_eq_true.mp hall d (List.mem_of_mem_getLast? hd)
      exact of_decide_eq_true this
    have h2 : Char.toLower d = cl := by
      have := h1
      rw [List.getLast?_map, hd] at this
      simpa using this
    have hno : ∀ x ∈ numericChars,
        Char.toLower x ≠ 'g' ∧ Char.toLower x ≠ 'f' ∧ Char.toLower x ≠ 'p' := by
      decide
    rcases hclv with rfl | rfl | rfl
    · exact (hno d hdnum).1 h2
    · exact (hno d hdnum).2.1 h2
    · exact (hno d hdnum).2.2 h2

theorem pointsLine_not_counted (p : String) (h : isPointsLine p = true) :
    countsLine p = false := by
  rw [isPointsLine] at h
  rw [countsLine]
  dsimp only
  split_ifs with h1 h2
  · rfl
  · rfl
  · cases hp : splitTokens (trimCh p.data) with
    | nil => simp [hp]
    | cons a as =>
      rw [hp] at h
      obtain ⟨x, hx⟩ := Option.isSome_iff_exists.mp
        (List.getLast?_isSome.mpr (List.cons_ne_nil a as))
      have hxmem : x ∈ a :: as := List.mem_of_mem_getLast? hx
      have hxnum : isNumericToken x = true := List.all_eq_true.mp h x hxmem
      have hlastD : (a :: as).getLastD [] = x := by
        rw [List.getLastD_eq_getLast?, hx]
        rfl
      rw [hlastD, numericToken_no_imgMatch x hxnum, Bool.and_false]

/-- Claim C9: the fallback text counter counts a header/points line pair
exactly once — for any header line that the counter recognizes (at least 10
tokens, last token matching the image-extension pattern case-insensitively)
followed by a purely numeric points line, the two-line listing counts 1,
the points line itself is never counted, and a listing of the points line
alone counts 0 (`metrics_sfm.py` lines 63-84 and `_IMG_RE` at line 6). -/
theorem c9_fallback_counts_header_points_pair_once :
    ∀ (header points : String),
      countsLine header = true → isPointsLine points = true →
      count_registered_images (some [header, points]) = 1 ∧
      countsLine points = false ∧
      count_registered_images (some [points]) = 0 := by
  intro hdr pts hh hp
  have hnc := pointsLine_not_counted pts hp
  refine ⟨?_, hnc, ?_⟩
  · simp [count_registered_images, List.countP_cons, hh, hnc]
  · simp [count_registered_images, List.countP_cons, hnc]

/-- Witness for C9 at the claim's example: a header line ending in
`IMG_01.jpg` followed by a numeric points line counts exactly one
registered image. -/
theorem c9_fallback_counts_header_points_pair_once_witness :
    count_registered_images (some ["1 0.1 0.2 0.3 0.4 1.0 2.0 3.0 1 IMG_01.jpg",
      "1.5 2.5 1 3.5 4.5 2"]) = 1 ∧
    countsLine "1.5 2.5 1 3.5 4.5 2" = false ∧
    count_registered_images (some ["1.5 2.5 1 3.5 4.5 2"]) = 0 :=
  c9_fallback_counts_header_points_pair_once
    "1 0.1 0.2 0.3 0.4 1.0 2.0 3.0 1 IMG_01.jpg" "1.5 2.5 1 3.5 4.5 2"
    (by decide) (by decide)

/-! ## Claim C10 -/

/-- Claim C10 counterexample: the claim says extension matching is
case-insensitive.  The file `a.Jpg` has an extension equal to `.jpg` under
case-insensitive comparison, yet `list_images` excludes it: `IMAGE_EXTS`
is an exact set holding only the all-lowercase and all-uppercase variants
(`io_utils.py` lines 4, 10-12). -/
theorem c10_counterexample_mixed_case_excluded :
    (pySuffix "a.Jpg").data.map Char.toLower = ".jpg".data ∧
    list_images [⟨"a.Jpg", false, true⟩] = [] := by
  decide

/-- Claim C10 (amended): a file is included in the subject's image list
exactly when its suffix is a member of the exact extension set
`{.jpg, .jpeg, .png, .JPG, .JPEG, .PNG}` — all-lowercase and all-uppercase
variants are included, while mixed-case extensions such as `.Jpg` are
excluded. -/
theorem c10_extension_match_exact :
    ∀ (entries : List Entry) (name : String),
      name ∈ list_images entries ↔
        ∃ e ∈ entries, e.name = name ∧ e.isFile = true ∧
          pySuffix e.name ∈ IMAGE_EXTS := by
  intro entries name
  constructor
  · intro h
    rw [list_images] at h
    obtain ⟨e, he, hname⟩ := List.mem_map.mp h
    obtain ⟨hmem, hpred⟩ := List.mem_filter.mp he
    rw [Bool.and_eq_true, decide_eq_true_eq] at hpred
    exact ⟨e, (List.mem_insertionSort _).mp hmem, hname, hpred.1, hpred.2⟩
  · rintro ⟨e, hmem, hname, hfile, hsuffix⟩
    rw [list_images]
    refine List.mem_map.mpr ⟨e, List.mem_filter.mpr
      ⟨(List.mem_insertionSort _).mpr hmem, ?_⟩, hname⟩
    rw [Bool.and_eq_true, decide_eq_true_eq]
    exact ⟨hfile, hsuffix⟩

/-- Witness for the amended C10: the all-uppercase `.PNG` variant is
included. -/
theorem c10_extension_match_exact_witness :
    "b.PNG" ∈ list_images [⟨"b.PNG", false, true⟩] :=
  (c10_extension_match_exact [⟨"b.PNG", false, true⟩] "b.PNG").mpr (by decide)

end Bird3d
